import Mathlib

/-!
Shallow embedding of the claim-verification pipeline of `fact_checker.py`
(class `FactChecker` and the module-level helpers `get_gpt_score`,
`compare_with_chatgpt`).  Python string methods used by the pipeline
(`split`, `strip`, `startswith`, `lower`, `join`) are modeled over the
character list underlying a `String`; external I/O collaborators (Redis,
the Serper search API, the Gemini model, the OpenAI chat API) and opaque
library primitives (`hashlib.md5`, `json.loads`, `float(str)`) are fields
of an explicit environment record, so every run of the pipeline is a pure
function of that environment.
-/

namespace FactCheck

/-- Split a character list at every occurrence of the character `c`
(model of Python `str.split(sep)` for a one-character separator, which is
the only form the pipeline uses: `split(":")` and `split("\n")`). -/
def splitOnChar (c : Char) : List Char → List (List Char)
  | [] => [[]]
  | x :: xs =>
    let r := splitOnChar c xs
    if x = c then [] :: r
    else
      match r with
      | [] => [[x]]
      | t :: ts => (x :: t) :: ts

/-- Model of Python `str.split(sep)` for a one-character separator. -/
def pySplit (c : Char) (s : String) : List String :=
  (splitOnChar c s.data).map String.mk

/-- Model of Python `str.strip()`: drop whitespace from both ends. -/
def pyStrip (s : String) : String :=
  ⟨((s.data.dropWhile Char.isWhitespace).reverse.dropWhile Char.isWhitespace).reverse⟩

/-- Model of Python `str.startswith(pre)`. -/
def pyStartsWith (s pre : String) : Bool :=
  pre.data.isPrefixOf s.data

/-- Model of Python `str.lower()` on the ASCII text the pipeline compares. -/
def pyLower (s : String) : String :=
  ⟨s.data.map Char.toLower⟩

/-- Model of Python `sep.join(parts)`. -/
def pyJoin (sep : String) (parts : List String) : String :=
  ⟨List.intercalate sep.data (parts.map String.data)⟩

/-- Read an optionally negated decimal integer.  This is a concrete test
double used to instantiate the abstract `float(str)` oracle in witnesses;
it is not itself part of the embedded pipeline. -/
def readDecimal (s : String) : Option ℚ :=
  match s.data with
  | '-' :: rest =>
    if rest ≠ [] ∧ rest.all Char.isDigit then
      some (-(rest.foldl (fun n c => n * 10 + (c.toNat - 48)) 0 : ℕ))
    else none
  | l =>
    if l ≠ [] ∧ l.all Char.isDigit then
      some ((l.foldl (fun n c => n * 10 + (c.toNat - 48)) 0 : ℕ))
    else none

/-- One entry of the `organic` array of a Serper search response, with the
string fields the extraction loop reads via `result.get(key, '')` (an
absent key is already folded into the empty-string default). -/
structure SerperItem where
  title : String
  link : String
  snippet : String
deriving DecidableEq, Repr

/-- The parts of the Serper HTTP response the code inspects: the status
code and the decoded `organic` result list. -/
structure SerperResponse where
  statusCode : Nat
  organic : List SerperItem
deriving DecidableEq, Repr

/-- One evidence dictionary as built by `_search_for_evidence`. -/
structure EvidenceItem where
  title : String
  link : String
  snippet : String
  source : String
deriving DecidableEq, Repr

/-- The record `_verify_with_llm` returns: score, verdict, explanation. -/
structure GeminiParse where
  score : ℚ
  verdict : String
  explanation : String
deriving DecidableEq, Repr

/-- The record `get_gpt_score` returns; `gpt_score` is `None`-able. -/
structure GptResult where
  gpt_score : Option ℚ
  gpt_explanation : String
deriving DecidableEq, Repr

/-- The result dictionary `verify_claim` returns.  The field `gpt` is
`none` when the dictionary carries no `gpt_score`/`gpt_explanation` keys
at all (the validation and top-level-error paths) and `some (s, e)` when
both keys are present with values `s` (a `None`-able number) and `e`. -/
structure VerificationResult where
  text : String
  score : ℚ
  verdict : String
  explanation : String
  sources : List String
  evidence : List EvidenceItem
  reviews : List String
  gpt : Option (Option ℚ × String)
deriving DecidableEq, Repr

/-- Instrumentation of one `verify_claim` run: how many times each
external collaborator was hit and which cache writes happened
(key, ttl seconds, value). -/
structure Trace where
  cacheGets : Nat
  searchCalls : Nat
  geminiCalls : Nat
  gptCalls : Nat
  cacheWrites : List (String × Nat × VerificationResult)
deriving DecidableEq, Repr

/-- The environment a run of the pipeline executes in: module
configuration plus the behaviour of every external collaborator and
opaque library primitive.  `md5hex` models `hashlib.md5(..).hexdigest()`;
`cacheGet`/`cacheSet` model `redis_client.get`/`setex` together with the
JSON (de)serialization; `search` models the Serper HTTP POST for a given
query string; `gemini` models `model.generate_content` returning the
response text; `chatgpt` models the OpenAI chat completion returning the
message content; `gptParse` models `json.loads` plus field extraction and
`int()` coercion applied to that content; `pyFloat` models Python
`float(str)`.  An `Except.error e` means the underlying call raised an
exception whose `str()` is `e`. -/
structure Env where
  redisAvailable : Bool
  md5hex : String → String
  cacheGet : String → Except String (Option VerificationResult)
  cacheSet : String → Nat → VerificationResult → Except String Unit
  serperKey : Option String
  search : String → Except String SerperResponse
  geminiConfigured : Bool
  gemini : String → Except String String
  openaiConfigured : Bool
  chatgpt : String → Except String String
  gptParse : String → Except String (Int × String)
  pyFloat : String → Option ℚ

/-- Build one evidence dictionary from a Serper organic result
(`title`/`snippet` are stripped, `source` is the fixed tag). -/
def toEvidenceItem (r : SerperItem) : EvidenceItem :=
  { title := pyStrip r.title, link := r.link, snippet := pyStrip r.snippet,
    source := "web_search" }

/-- The extraction loop of `_search_for_evidence`: walk the organic
results keeping a `seen_urls` set, appending an evidence item whenever the
link is non-empty and not seen before. -/
def extractLoop : List SerperItem → List String → List EvidenceItem → List EvidenceItem
  | [], _, evidence => evidence
  | r :: rs, seen, evidence =>
    if r.link != "" && !(seen.contains r.link) then
      extractLoop rs (r.link :: seen) (evidence ++ [toEvidenceItem r])
    else
      extractLoop rs seen evidence

/-- Evidence extracted from a 200-status Serper response body. -/
def extractEvidence (organic : List SerperItem) : List EvidenceItem :=
  extractLoop organic [] []

/-- `FactChecker._search_for_evidence`: no Serper key means an immediate
empty result with no network call; otherwise one POST with the query
`"fact check " + claim`; any exception or a non-200 status yields `[]`.
The second component counts search-provider calls attempted. -/
def search_for_evidence (env : Env) (claim : String) : List EvidenceItem × Nat :=
  match env.serperKey with
  | none => ([], 0)
  | some _ =>
    match env.search ("fact check " ++ claim) with
    | .error _ => ([], 1)
    | .ok resp =>
      (if resp.statusCode = 200 then extractEvidence resp.organic else [], 1)

/-- The evidence block of the Gemini prompt: the first five evidence
items rendered as `Source i+1: title \n snippet`, newline-joined. -/
def evidenceText (evidence : List EvidenceItem) : String :=
  pyJoin "\n" ((evidence.take 5).enum.map (fun p =>
    "Source " ++ toString (p.1 + 1) ++ ": " ++ p.2.title ++ "\n" ++ p.2.snippet))

/-- The analysis prompt `_verify_with_llm` sends to Gemini. -/
def geminiPrompt (claim : String) (evidence : List EvidenceItem) : String :=
  "Analyze this claim and determine if it is true or false based on the evidence provided.\n\nClaim: \"" ++ claim ++ "\"\n\nEvidence:\n" ++ evidenceText evidence ++ "\n\nPlease analyze the claim carefully and provide:\n1. A score from 0-100 (where 0 is completely false and 100 is completely true)\n2. A detailed explanation of your reasoning\n3. A clear verdict (true/false/partial)\n\nFormat your response exactly like this:\nSCORE: [number 0-100]\nVERDICT: [true/false/partial]\nEXPLANATION: [your detailed analysis]"

/-- Processing of one response line in `_verify_with_llm`: a `SCORE:`
line re-sets the score to the clamped parsed number, or to 50.0 when
indexing or `float()` fails; a `VERDICT:` line re-sets the verdict only
when the lowered value is one of true/false/partial; an `EXPLANATION:`
line re-sets the explanation to everything after the first colon,
stripped. -/
def applyLine (pyFloat : String → Option ℚ) (st : GeminiParse) (line : String) : GeminiParse :=
  if pyStartsWith line "SCORE:" then
    match (pySplit ':' line)[1]? with
    | some fr =>
      match pyFloat (pyStrip fr) with
      | some q => { st with score := max 0 (min 100 q) }
      | none => { st with score := 50 }
    | none => { st with score := 50 }
  else if pyStartsWith line "VERDICT:" then
    let v := pyLower (pyStrip (((pySplit ':' line)[1]?).getD ""))
    if ["true", "false", "partial"].contains v then { st with verdict := v } else st
  else if pyStartsWith line "EXPLANATION:" then
    { st with explanation := pyStrip (pyJoin ":" ((pySplit ':' line).drop 1)) }
  else st

/-- The response parsing of `_verify_with_llm`: start from score 50.0,
verdict "neutral", empty explanation, fold over the lines, and when no
`EXPLANATION:` line was found and there are more than two lines, fall
back to joining every line after the second. -/
def parseGeminiResponse (pyFloat : String → Option ℚ) (responseText : String) : GeminiParse :=
  let lines := pySplit '\n' responseText
  let st := lines.foldl (applyLine pyFloat) { score := 50, verdict := "neutral", explanation := "" }
  if st.explanation = "" ∧ lines.length > 2 then
    { st with explanation := pyStrip (pyJoin "\n" (lines.drop 2)) }
  else st

/-- `FactChecker._verify_with_llm`: raises when no Gemini model is
configured, otherwise sends the prompt and parses the response text,
substituting "No explanation provided" for an empty explanation; any
exception from the model call is re-raised.  The second component counts
Gemini calls attempted. -/
def verify_with_llm (env : Env) (claim : String) (evidence : List EvidenceItem) :
    Except String GeminiParse × Nat :=
  if env.geminiConfigured = false then
    (.error "Gemini model not available", 0)
  else
    match env.gemini (geminiPrompt claim evidence) with
    | .error e => (.error e, 1)
    | .ok text =>
      let p := parseGeminiResponse env.pyFloat text
      (.ok { p with
              explanation := if p.explanation = "" then "No explanation provided" else p.explanation },
       1)

/-- The comparison prompt `get_gpt_score` sends to the secondary model. -/
def gptPrompt (claim explanation : String) : String :=
  "Analyze this claim and explanation to determine if the claim is true or false.\n\nClaim: \"" ++ claim ++ "\"\n\nExplanation from analysis: \"" ++ explanation ++ "\"\n\nBased on how well the explanation proves or disproves the claim, give a score:\n0 = Completely false\n100 = Completely true\n\nRespond in this exact JSON format:\n\x7b\n    \"score\": [number 0-100],\n    \"explanation\": [brief explanation of why you gave this score]\n\x7d"

/-- `get_gpt_score`: with no OpenAI key configured it returns the fixed
record without any call; otherwise one chat call whose parsed score is
clamped with `min(100, max(0, int(score)))`; an API exception or a parse
failure yields a `None` score with an error explanation.  The second
component counts OpenAI calls attempted. -/
def get_gpt_score (env : Env) (claim explanation : String) : GptResult × Nat :=
  if env.openaiConfigured = false then
    ({ gpt_score := none, gpt_explanation := "OpenAI API key not set" }, 0)
  else
    match env.chatgpt (gptPrompt claim explanation) with
    | .error e =>
      ({ gpt_score := none, gpt_explanation := "Error calling GPT API: " ++ e }, 1)
    | .ok content =>
      match env.gptParse content with
      | .ok (n, expl) =>
        ({ gpt_score := some ((min 100 (max 0 n) : Int) : ℚ), gpt_explanation := expl }, 1)
      | .error e =>
        ({ gpt_score := none, gpt_explanation := "Error parsing GPT response: " ++ e }, 1)

/-- The `str()` of the `TypeError` CPython raises for `float(None)`:
`verify_claim` evaluates `float(gpt_res.get("gpt_score", 50))`, which
raises exactly when the returned `gpt_score` is `None`, and the handler
then stores this message inside the secondary explanation. -/
def pyFloatNoneMessage : String :=
  "float() argument must be a string or a real number, not \x27NoneType\x27"

/-- The cache key of `verify_claim`:
`"factcheck:" + md5(claim + (context or "")).hexdigest()`. -/
def cache_key (env : Env) (claim : String) (context : Option String) : String :=
  "factcheck:" ++ env.md5hex (claim ++ context.getD "")

/-- The result `verify_claim` returns when the claim is empty or its
stripped length is below 3. -/
def tooShortResult (claim : String) : VerificationResult :=
  { text := claim, score := 50, verdict := "neutral",
    explanation := "Claim too short or empty", sources := [], evidence := [],
    reviews := [], gpt := none }

/-- The result the top-level handler of `verify_claim` builds from an
escaped exception. -/
def errorResult (claim e : String) : VerificationResult :=
  { text := claim, score := 50, verdict := "error",
    explanation := "Error verifying claim: " ++ e, sources := [], evidence := [],
    reviews := [], gpt := none }

/-- The cache-miss computation of `verify_claim` (steps after a cache
miss, before the cache write): gather evidence, run the primary judge
with its neutral fallback, run the secondary judge — where a `None`
secondary score makes `float(None)` raise, caught into a `None` score and
an error explanation — and assemble the result dictionary, with `sources`
the truthy links of the evidence items. -/
def missCompute (env : Env) (claim : String) : VerificationResult × Trace :=
  let sev := search_for_evidence env claim
  let ai := verify_with_llm env claim sev.1
  let primary : GeminiParse :=
    match ai.1 with
    | .ok o => o
    | .error e => { score := 50, verdict := "neutral", explanation := "Error in AI analysis: " ++ e }
  let gpt := get_gpt_score env claim primary.explanation
  let secondary : Option ℚ × String :=
    match gpt.1.gpt_score with
    | some q => (some q, gpt.1.gpt_explanation)
    | none => (none, "Error in GPT secondary check: " ++ pyFloatNoneMessage)
  ({ text := claim, score := primary.score, verdict := primary.verdict,
     explanation := primary.explanation,
     sources := sev.1.filterMap (fun e => if e.link = "" then none else some e.link),
     evidence := sev.1, reviews := [], gpt := some secondary },
   { cacheGets := 0, searchCalls := sev.2, geminiCalls := ai.2, gptCalls := gpt.2,
     cacheWrites := [] })

/-- The body of `verify_claim` inside its top-level `try`: validation,
cache lookup (a hit returns the cached result verbatim), the cache-miss
computation, and the cache write with a `3600*24`-second TTL.  A raise
from `redis_client.get` or `redis_client.setex` — the only calls not
wrapped by a per-step handler — surfaces as `Except.error` together with
the trace accumulated so far. -/
def verify_claim_attempt (env : Env) (claim : String) (context : Option String) :
    Except (String × Trace) (VerificationResult × Trace) :=
  if (pyStrip claim).length < 3 then
    .ok (tooShortResult claim, ⟨0, 0, 0, 0, []⟩)
  else if env.redisAvailable then
    match env.cacheGet (cache_key env claim context) with
    | .error e => .error (e, ⟨1, 0, 0, 0, []⟩)
    | .ok (some cached) => .ok (cached, ⟨1, 0, 0, 0, []⟩)
    | .ok none =>
      match env.cacheSet (cache_key env claim context) (3600 * 24) (missCompute env claim).1 with
      | .error e =>
        .error (e, ⟨1, (missCompute env claim).2.searchCalls,
                    (missCompute env claim).2.geminiCalls,
                    (missCompute env claim).2.gptCalls, []⟩)
      | .ok _ =>
        .ok ((missCompute env claim).1,
             ⟨1, (missCompute env claim).2.searchCalls,
              (missCompute env claim).2.geminiCalls,
              (missCompute env claim).2.gptCalls,
              [(cache_key env claim context, 3600 * 24, (missCompute env claim).1)]⟩)
  else
    .ok ((missCompute env claim).1, (missCompute env claim).2)

/-- `FactChecker.verify_claim`: the body above with the top-level
`except` that converts any escaped exception into an error-verdict
result. -/
def verify_claim (env : Env) (claim : String) (context : Option String) :
    VerificationResult × Trace :=
  match verify_claim_attempt env claim context with
  | .ok r => r
  | .error (e, tr) => (errorResult claim e, tr)

/-- Modelled from the spec for comparison with `extractEvidence`: drop
entries with an empty link, keep the first occurrence of each link in
provider order dropping later entries with an already-seen link, and
render each kept entry as an evidence item. -/
def dedupByLink : List SerperItem → List SerperItem
  | [] => []
  | r :: rs => r :: dedupByLink (rs.filter (fun x => x.link != r.link))
termination_by l => l.length
decreasing_by
  simp only [List.length_cons]
  exact Nat.lt_succ_of_le (List.length_filter_le _ _)

/-- Modelled from the spec: the evidence a gathering call should return. -/
def specGatherEvidence (organic : List SerperItem) : List EvidenceItem :=
  (dedupByLink (organic.filter (fun r => r.link != ""))).map toEvidenceItem

/-- The environment as a second identical request sees it: the cache now
answers the fingerprint of (claim, context) with the result the first
call computed and wrote. -/
def envAfterFirst (env : Env) (claim : String) (context : Option String) : Env :=
  { env with
    cacheGet := fun k =>
      if k = cache_key env claim context then .ok (some (verify_claim env claim context).1)
      else env.cacheGet k }

/-! ### Concrete environments used by the witnesses -/

/-- A fully offline environment: no Redis, no search key, no models. -/
def envBase : Env :=
  { redisAvailable := false, md5hex := fun s => s,
    cacheGet := fun _ => .ok none, cacheSet := fun _ _ _ => .ok (),
    serperKey := none, search := fun _ => .error "network unavailable",
    geminiConfigured := false, gemini := fun _ => .error "model down",
    openaiConfigured := false, chatgpt := fun _ => .error "api down",
    gptParse := fun _ => .error "bad json", pyFloat := readDecimal }

/-- An environment whose Redis client raises on every read. -/
def envErr : Env :=
  { envBase with redisAvailable := true, cacheGet := fun _ => .error "Connection refused" }

/-- Redis up and empty, Gemini answering a well-formed response. -/
def envW1 : Env :=
  { envBase with
    redisAvailable := true,
    geminiConfigured := true,
    gemini := fun _ => .ok "SCORE: 80\nVERDICT: true\nEXPLANATION: fine" }

/-- No OpenAI key, Gemini answering a well-formed response. -/
def envW3 : Env :=
  { envBase with
    geminiConfigured := true,
    gemini := fun _ => .ok "SCORE: 90\nVERDICT: true\nEXPLANATION: y" }

/-- Search succeeding with one organic result, Gemini not configured. -/
def envW4 : Env :=
  { envBase with
    serperKey := some "k",
    search := fun _ => .ok ⟨200, [⟨"NASA", "https:nasa.gov", "not visible"⟩]⟩ }

/-- Gemini reporting a score of 150. -/
def envClampHigh : Env :=
  { envBase with
    geminiConfigured := true,
    gemini := fun _ => .ok "SCORE: 150\nVERDICT: true\nEXPLANATION: x" }

/-- Gemini reporting a score of -10. -/
def envClampLow : Env :=
  { envBase with
    geminiConfigured := true,
    gemini := fun _ => .ok "SCORE: -10\nVERDICT: false\nEXPLANATION: x" }

/-- A provider response with an empty link, a duplicate link and two
fresh links, exercising the deduplication. -/
def sampleOrganic : List SerperItem :=
  [⟨"t1", "L1", "s1"⟩, ⟨"t2", "", "s2"⟩, ⟨"t3", "L1", "s3"⟩, ⟨"t4", "L2", "s4"⟩]

/-! ### Lemmas about the evidence extraction loop -/

lemma extractLoop_eq (rs : List SerperItem) : ∀ (seen : List String) (ev : List EvidenceItem),
    extractLoop rs seen ev
      = ev ++ (dedupByLink (rs.filter
          (fun x => x.link != "" && !(seen.contains x.link)))).map toEvidenceItem := by
  induction rs with
  | nil => intro seen ev; simp [extractLoop, dedupByLink]
  | cons r rs ih =>
    intro seen ev
    by_cases h1 : (r.link != "" && !(seen.contains r.link)) = true
    · have h2 : (r :: rs).filter (fun x => x.link != "" && !(seen.contains x.link))
          = r :: rs.filter (fun x => x.link != "" && !(seen.contains x.link)) := by
        rw [List.filter_cons]
        simp only [h1, if_true]
      have hfilter : (rs.filter (fun x => x.link != "" && !(seen.contains x.link))).filter
            (fun x => x.link != r.link)
          = rs.filter (fun x => x.link != "" && !(((r.link :: seen)).contains x.link)) := by
        rw [List.filter_filter]
        apply List.filter_congr
        intro x _
        have hcons : ((r.link :: seen)).contains x.link
            = (x.link == r.link || seen.contains x.link) := List.contains_cons
        rw [hcons]
        cases hxe : (x.link != "") <;> cases hxr : (x.link == r.link)
          <;> cases hxs : (seen.contains x.link) <;> simp_all [bne]
      rw [extractLoop, if_pos h1, ih, h2, dedupByLink, hfilter, List.map_cons, List.append_cons]
      simp
    · have h2 : (r :: rs).filter (fun x => x.link != "" && !(seen.contains x.link))
          = rs.filter (fun x => x.link != "" && !(seen.contains x.link)) := by
        rw [List.filter_cons]
        simp only [h1, if_false, Bool.false_eq_true, ite_false]
      rw [extractLoop, if_neg h1, ih, h2]

lemma extractEvidence_eq_spec (organic : List SerperItem) :
    extractEvidence organic = specGatherEvidence organic := by
  rw [extractEvidence, extractLoop_eq, specGatherEvidence, List.nil_append]
  have : organic.filter (fun x => x.link != "" && !(([] : List String).contains x.link))
      = organic.filter (fun r => r.link != "") := by
    apply List.filter_congr
    intro x _
    simp [List.contains]
  rw [this]

lemma mem_dedupByLink {x : SerperItem} : ∀ {l : List SerperItem}, x ∈ dedupByLink l → x ∈ l := by
  intro l
  induction l using dedupByLink.induct with
  | case1 => intro h; simp [dedupByLink] at h
  | case2 r rs ih =>
    intro h
    rw [dedupByLink] at h
    rcases List.mem_cons.mp h with h | h
    · exact h ▸ List.mem_cons_self _ _
    · exact List.mem_cons_of_mem _ (List.mem_of_mem_filter (ih h))

lemma dedupByLink_pairwise : ∀ (l : List SerperItem),
    (dedupByLink l).Pairwise (fun a b => a.link ≠ b.link) := by
  intro l
  induction l using dedupByLink.induct with
  | case1 => simp [dedupByLink]
  | case2 r rs ih =>
    rw [dedupByLink]
    refine List.Pairwise.cons ?_ ih
    intro b hb
    have hbf : b ∈ rs.filter (fun x => x.link != r.link) := mem_dedupByLink hb
    have := (List.mem_filter.mp hbf).2
    simp only [bne_iff_ne, ne_eq] at this
    exact fun he => this he.symm

lemma extractEvidence_link_ne (organic : List SerperItem) :
    ∀ e ∈ extractEvidence organic, e.link ≠ "" := by
  intro e he
  rw [extractEvidence_eq_spec, specGatherEvidence] at he
  rcases List.mem_map.mp he with ⟨r, hr, hre⟩
  have hrf := (List.mem_filter.mp (mem_dedupByLink hr)).2
  simp only [bne_iff_ne, ne_eq] at hrf
  have : e.link = r.link := by rw [← hre]; rfl
  rw [this]
  exact hrf

lemma extractEvidence_pairwise (organic : List SerperItem) :
    (extractEvidence organic).Pairwise (fun a b => a.link ≠ b.link) := by
  rw [extractEvidence_eq_spec, specGatherEvidence]
  rw [List.pairwise_map]
  have h := dedupByLink_pairwise (organic.filter (fun r => r.link != ""))
  exact h.imp (fun hab => hab)

/-! ### Lemmas about the Gemini response parsing -/

lemma applyLine_score_bounds (pf : String → Option ℚ) (st : GeminiParse) (line : String)
    (h : 0 ≤ st.score ∧ st.score ≤ 100) :
    0 ≤ (applyLine pf st line).score ∧ (applyLine pf st line).score ≤ 100 := by
  unfold applyLine
  split
  · split
    · split
      · constructor
        · exact le_max_left 0 _
        · exact max_le (by norm_num) (min_le_left _ _)
      · exact ⟨by norm_num, by norm_num⟩
    · exact ⟨by norm_num, by norm_num⟩
  · split
    · dsimp only
      split
      · exact h
      · exact h
    · split
      · exact h
      · exact h

lemma applyLine_verdict_mem (pf : String → Option ℚ) (st : GeminiParse) (line : String)
    (h : st.verdict ∈ (["true", "false", "partial", "neutral"] : List String)) :
    (applyLine pf st line).verdict ∈ (["true", "false", "partial", "neutral"] : List String) := by
  unfold applyLine
  split
  · split
    · split
      · exact h
      · exact h
    · exact h
  · split
    · dsimp only
      split
      · rename_i hc
        have hv := List.elem_iff.mp hc
        simp only [List.mem_cons, List.not_mem_nil, or_false] at hv ⊢
        tauto
      · exact h
    · split
      · exact h
      · exact h

lemma applyLine_verdict_preserved (pf : String → Option ℚ) (st : GeminiParse) (line : String)
    (h : pyStartsWith line "VERDICT:" = false) :
    (applyLine pf st line).verdict = st.verdict := by
  unfold applyLine
  split
  · split
    · split
      · rfl
      · rfl
    · rfl
  · split
    · rename_i hv
      rw [h] at hv
      exact Bool.noConfusion hv
    · split
      · rfl
      · rfl

lemma foldl_applyLine_score_bounds (pf : String → Option ℚ) (lines : List String) :
    ∀ (st : GeminiParse), 0 ≤ st.score ∧ st.score ≤ 100 →
      0 ≤ (lines.foldl (applyLine pf) st).score ∧ (lines.foldl (applyLine pf) st).score ≤ 100 := by
  induction lines with
  | nil => intro st h; exact h
  | cons l ls ih =>
    intro st h
    exact ih _ (applyLine_score_bounds pf st l h)

lemma foldl_applyLine_verdict_mem (pf : String → Option ℚ) (lines : List String) :
    ∀ (st : GeminiParse), st.verdict ∈ (["true", "false", "partial", "neutral"] : List String) →
      (lines.foldl (applyLine pf) st).verdict ∈ (["true", "false", "partial", "neutral"] : List String) := by
  induction lines with
  | nil => intro st h; exact h
  | cons l ls ih =>
    intro st h
    exact ih _ (applyLine_verdict_mem pf st l h)

lemma foldl_applyLine_verdict_preserved (pf : String → Option ℚ) (lines : List String)
    (hl : ∀ l ∈ lines, pyStartsWith l "VERDICT:" = false) :
    ∀ (st : GeminiParse), (lines.foldl (applyLine pf) st).verdict = st.verdict := by
  induction lines with
  | nil => intro st; rfl
  | cons l ls ih =>
    intro st
    have h1 : pyStartsWith l "VERDICT:" = false := hl l (List.mem_cons_self _ _)
    have h2 : ∀ x ∈ ls, pyStartsWith x "VERDICT:" = false :=
      fun x hx => hl x (List.mem_cons_of_mem _ hx)
    rw [List.foldl_cons, ih h2, applyLine_verdict_preserved pf st l h1]

lemma parseGeminiResponse_verdict (pf : String → Option ℚ) (t : String) :
    (parseGeminiResponse pf t).verdict
      = ((pySplit '\n' t).foldl (applyLine pf)
          { score := 50, verdict := "neutral", explanation := "" }).verdict := by
  unfold parseGeminiResponse
  dsimp only
  split
  · rfl
  · rfl

lemma parseGeminiResponse_score (pf : String → Option ℚ) (t : String) :
    (parseGeminiResponse pf t).score
      = ((pySplit '\n' t).foldl (applyLine pf)
          { score := 50, verdict := "neutral", explanation := "" }).score := by
  unfold parseGeminiResponse
  dsimp only
  split
  · rfl
  · rfl

/-! ### Lemmas about the orchestrator paths -/

lemma verify_claim_short (env : Env) (claim : String) (context : Option String)
    (h : (pyStrip claim).length < 3) :
    verify_claim env claim context = (tooShortResult claim, ⟨0, 0, 0, 0, []⟩) := by
  unfold verify_claim verify_claim_attempt
  rw [if_pos h]

lemma verify_claim_miss_redis (env : Env) (claim : String) (context : Option String)
    (h3 : ¬ (pyStrip claim).length < 3)
    (hr : env.redisAvailable = true)
    (hget : env.cacheGet (cache_key env claim context) = .ok none)
    (hset : ∀ k t v, env.cacheSet k t v = .ok ()) :
    verify_claim env claim context
      = ((missCompute env claim).1,
         ⟨1, (missCompute env claim).2.searchCalls,
          (missCompute env claim).2.geminiCalls,
          (missCompute env claim).2.gptCalls,
          [(cache_key env claim context, 3600 * 24, (missCompute env claim).1)]⟩) := by
  unfold verify_claim verify_claim_attempt
  rw [if_neg h3, hr, hget, hset]
  rfl

lemma verify_claim_hit (env : Env) (claim : String) (context : Option String)
    (h3 : ¬ (pyStrip claim).length < 3)
    (hr : env.redisAvailable = true)
    (cached : VerificationResult)
    (hget : env.cacheGet (cache_key env claim context) = .ok (some cached)) :
    verify_claim env claim context = (cached, ⟨1, 0, 0, 0, []⟩) := by
  unfold verify_claim verify_claim_attempt
  rw [if_neg h3, hr, hget]
  rfl

lemma verify_claim_miss_noredis (env : Env) (claim : String) (context : Option String)
    (h3 : ¬ (pyStrip claim).length < 3)
    (hr : env.redisAvailable = false) :
    verify_claim env claim context = ((missCompute env claim).1, (missCompute env claim).2) := by
  unfold verify_claim verify_claim_attempt
  rw [if_neg h3, hr]
  rfl

lemma filterMap_links (l : List EvidenceItem) (h : ∀ e ∈ l, e.link ≠ "") :
    l.filterMap (fun e => if e.link = "" then none else some e.link)
      = l.map (fun e => e.link) := by
  induction l with
  | nil => rfl
  | cons e es ih =>
    have he : e.link ≠ "" := h e (List.mem_cons_self _ _)
    have hes : ∀ x ∈ es, x.link ≠ "" := fun x hx => h x (List.mem_cons_of_mem _ hx)
    rw [List.filterMap_cons, List.map_cons, if_neg he, ih hes]

lemma search_evidence_link_ne (env : Env) (claim : String) :
    ∀ e ∈ (search_for_evidence env claim).1, e.link ≠ "" := by
  unfold search_for_evidence
  match env.serperKey with
  | none => intro e he; simp at he
  | some k =>
    match env.search ("fact check " ++ claim) with
    | .error _ => intro e he; simp at he
    | .ok resp =>
      dsimp only
      split
      · exact extractEvidence_link_ne resp.organic
      · intro e he; simp at he

/-! ### Further shared lemmas -/

lemma verify_claim_fst_miss (env : Env) (claim : String) (ctx : Option String)
    (h3 : ¬ (pyStrip claim).length < 3)
    (hget : env.redisAvailable = true → env.cacheGet (cache_key env claim ctx) = .ok none)
    (hset : ∀ k t v, env.cacheSet k t v = .ok ()) :
    (verify_claim env claim ctx).1 = (missCompute env claim).1 := by
  cases hr : env.redisAvailable with
  | false => rw [verify_claim_miss_noredis env claim ctx h3 hr]
  | true => rw [verify_claim_miss_redis env claim ctx h3 hr (hget hr) hset]

lemma missCompute_gpt_noopenai (env : Env) (claim : String)
    (hopen : env.openaiConfigured = false) :
    (missCompute env claim).1.gpt
      = some (none, "Error in GPT secondary check: " ++ pyFloatNoneMessage) := by
  unfold missCompute get_gpt_score
  rw [hopen]
  rfl

lemma missCompute_primary_error (env : Env) (claim e : String)
    (hfail : (verify_with_llm env claim (search_for_evidence env claim).1).1 = .error e) :
    (missCompute env claim).1.score = 50
    ∧ (missCompute env claim).1.verdict = "neutral"
    ∧ (missCompute env claim).1.explanation = "Error in AI analysis: " ++ e
    ∧ (missCompute env claim).1.evidence = (search_for_evidence env claim).1
    ∧ (missCompute env claim).1.sources
        = ((missCompute env claim).1.evidence).map (fun i => i.link) := by
  unfold missCompute
  dsimp only
  rw [hfail]
  refine ⟨rfl, rfl, rfl, rfl, ?_⟩
  exact filterMap_links _ (search_evidence_link_ne env claim)

/-! ### The claims -/

/-- C2: for every claim whose stripped text is shorter than 3
characters, `verify_claim` returns the fixed neutral result with score
50.0, empty evidence and sources, and attempts no cache, search or judge
call (the trace is all zeroes with no cache write). -/
theorem claim_C2 (env : Env) (claim : String) (ctx : Option String)
    (h : (pyStrip claim).length < 3) :
    verify_claim env claim ctx
      = ({ text := claim, score := 50, verdict := "neutral",
           explanation := "Claim too short or empty", sources := [], evidence := [],
           reviews := [], gpt := none },
         ⟨0, 0, 0, 0, []⟩) :=
  verify_claim_short env claim ctx h

/-- Witness for C2 at the two-character claim "hi". -/
theorem claim_C2_witness :
    (pyStrip "hi").length < 3
    ∧ verify_claim envBase "hi" none
        = ({ text := "hi", score := 50, verdict := "neutral",
             explanation := "Claim too short or empty", sources := [], evidence := [],
             reviews := [], gpt := none },
           ⟨0, 0, 0, 0, []⟩) :=
  ⟨by decide, claim_C2 envBase "hi" none (by decide)⟩

/-- C5: `verify_claim` never propagates an exception: its body either
returns normally, or every escaped exception is caught at the
orchestrator boundary and converted into a well-formed result with
verdict "error", score 50.0 and an explanation naming the error. -/
theorem claim_C5 (env : Env) (c : String) (ctx : Option String) :
    ((∃ r, verify_claim_attempt env c ctx = .ok r ∧ verify_claim env c ctx = r)
      ∨ (∃ e tr, verify_claim_attempt env c ctx = .error (e, tr)
          ∧ verify_claim env c ctx = (errorResult c e, tr)))
    ∧ (∀ e tr, verify_claim_attempt env c ctx = .error (e, tr) →
        (verify_claim env c ctx).1.verdict = "error"
        ∧ (verify_claim env c ctx).1.score = 50
        ∧ (verify_claim env c ctx).1.explanation = "Error verifying claim: " ++ e
        ∧ (verify_claim env c ctx).1.text = c) := by
  constructor
  · cases h : verify_claim_attempt env c ctx with
    | ok r => exact Or.inl ⟨r, rfl, by unfold verify_claim; rw [h]⟩
    | error p =>
      obtain ⟨e, tr⟩ := p
      exact Or.inr ⟨e, tr, rfl, by unfold verify_claim; rw [h]⟩
  · intro e tr h
    unfold verify_claim
    rw [h]
    exact ⟨rfl, rfl, rfl, rfl⟩

/-- Witness for C5: a raising Redis read is converted to an error
result. -/
theorem claim_C5_witness :
    verify_claim_attempt envErr "The sky is blue" none
        = .error ("Connection refused", ⟨1, 0, 0, 0, []⟩)
    ∧ (verify_claim envErr "The sky is blue" none).1.verdict = "error"
    ∧ (verify_claim envErr "The sky is blue" none).1.score = 50
    ∧ (verify_claim envErr "The sky is blue" none).1.explanation
        = "Error verifying claim: " ++ "Connection refused"
    ∧ (verify_claim envErr "The sky is blue" none).1.text = "The sky is blue" :=
  ⟨rfl, (claim_C5 envErr "The sky is blue" none).2 "Connection refused" ⟨1, 0, 0, 0, []⟩ rfl⟩

/-- C8: within one gathering call the extracted evidence equals the
spec-side description — drop empty links, keep the first occurrence of a
link in provider order, drop later duplicates — so no two items share a
link and no item has an empty link. -/
theorem claim_C8 (organic : List SerperItem) :
    extractEvidence organic = specGatherEvidence organic
    ∧ (extractEvidence organic).Pairwise (fun a b => a.link ≠ b.link)
    ∧ ∀ e ∈ extractEvidence organic, e.link ≠ "" :=
  ⟨extractEvidence_eq_spec organic, extractEvidence_pairwise organic,
   extractEvidence_link_ne organic⟩

/-- Witness for C8 on a concrete provider response. -/
theorem claim_C8_witness :
    (⟨"t1", "L1", "s1", "web_search"⟩ : EvidenceItem) ∈ extractEvidence sampleOrganic
    ∧ (⟨"t1", "L1", "s1", "web_search"⟩ : EvidenceItem).link ≠ ""
    ∧ (extractEvidence sampleOrganic).Pairwise (fun a b => a.link ≠ b.link) :=
  ⟨by decide, (claim_C8 sampleOrganic).2.2 _ (by decide), (claim_C8 sampleOrganic).2.1⟩

/-- C9: the cache fingerprint is the hash of the bare concatenation of
claim and context, so the distinct inputs (claim="ab", context="") and
(claim="a", context="b") share one cache key under every hash
function — in particular under MD5. -/
theorem claim_C9 :
    ("ab" : String) ≠ "a"
    ∧ ∀ env : Env, cache_key env "ab" (some "") = cache_key env "a" (some "b") :=
  ⟨by decide,
   fun env => congrArg (fun s => "factcheck:" ++ env.md5hex s)
     (by decide : ("ab" ++ (some "").getD "" : String) = "a" ++ (some "b").getD "")⟩

/-- Witness for C9 at a concrete environment. -/
theorem claim_C9_witness :
    cache_key envBase "ab" (some "") = cache_key envBase "a" (some "b") :=
  claim_C9.2 envBase

/-- C6: a SCORE line whose fragment `float()`-parses to a number sets the
score to its clamp into [0, 100] and a non-parsing fragment sets 50.0;
every parsed response therefore carries a score inside [0, 100], and
concretely a reported 150 yields 100, a reported -10 yields 0, an
unparseable SCORE yields 50 — also end-to-end through the final result of
`verify_claim`. -/
theorem claim_C6 :
    (∀ (pf : String → Option ℚ) (st : GeminiParse) (line fr : String) (q : ℚ),
      pyStartsWith line "SCORE:" = true → (pySplit ':' line)[1]? = some fr →
        pf (pyStrip fr) = some q →
          (applyLine pf st line).score = max 0 (min 100 q))
    ∧ (∀ (pf : String → Option ℚ) (st : GeminiParse) (line fr : String),
        pyStartsWith line "SCORE:" = true → (pySplit ':' line)[1]? = some fr →
          pf (pyStrip fr) = none →
            (applyLine pf st line).score = 50)
    ∧ (∀ (pf : String → Option ℚ) (t : String),
        0 ≤ (parseGeminiResponse pf t).score ∧ (parseGeminiResponse pf t).score ≤ 100)
    ∧ (parseGeminiResponse readDecimal "SCORE: 150\nVERDICT: true\nEXPLANATION: x").score = 100
    ∧ (parseGeminiResponse readDecimal "SCORE: -10\nVERDICT: false\nEXPLANATION: x").score = 0
    ∧ (parseGeminiResponse readDecimal "SCORE: abc\nVERDICT: true\nEXPLANATION: x").score = 50
    ∧ (verify_claim envClampHigh "The Eiffel Tower is in Paris" none).1.score = 100
    ∧ (verify_claim envClampLow "The Eiffel Tower is in Paris" none).1.score = 0 := by
  refine ⟨?_, ?_, ?_, by decide, by decide, by decide, by decide, by decide⟩
  · intro pf st line fr q h h1 h2
    unfold applyLine
    rw [if_pos h, h1]
    dsimp only
    rw [h2]
  · intro pf st line fr h h1 h2
    unfold applyLine
    rw [if_pos h, h1]
    dsimp only
    rw [h2]
  · intro pf t
    rw [parseGeminiResponse_score]
    exact foldl_applyLine_score_bounds pf (pySplit '\n' t) _ ⟨by norm_num, by norm_num⟩

/-- Witness for C6 at the line "SCORE: 150". -/
theorem claim_C6_witness :
    (pyStartsWith "SCORE: 150" "SCORE:" = true
      ∧ (pySplit ':' "SCORE: 150")[1]? = some " 150"
      ∧ readDecimal (pyStrip " 150") = some 150)
    ∧ (applyLine readDecimal ⟨50, "neutral", ""⟩ "SCORE: 150").score = max 0 (min 100 150) :=
  ⟨⟨by decide, by decide, by decide⟩,
   claim_C6.1 readDecimal ⟨50, "neutral", ""⟩ "SCORE: 150" " 150" 150
     (by decide) (by decide) (by decide)⟩

/-- C7: the verdict `_verify_with_llm` reports is always one of true,
false, partial, neutral; a response without a VERDICT line keeps the
default "neutral"; and the unrecognized token "maybe" is replaced by
"neutral", never forwarded. -/
theorem claim_C7 :
    (∀ (pf : String → Option ℚ) (t : String),
      (parseGeminiResponse pf t).verdict ∈ (["true", "false", "partial", "neutral"] : List String))
    ∧ (∀ (pf : String → Option ℚ) (t : String),
        (∀ l ∈ pySplit '\n' t, pyStartsWith l "VERDICT:" = false) →
          (parseGeminiResponse pf t).verdict = "neutral")
    ∧ (∀ (env : Env) (claim : String) (ev : List EvidenceItem) (o : GeminiParse) (n : Nat),
        verify_with_llm env claim ev = (.ok o, n) →
          o.verdict ∈ (["true", "false", "partial", "neutral"] : List String))
    ∧ (parseGeminiResponse readDecimal "VERDICT: maybe").verdict = "neutral" := by
  refine ⟨?_, ?_, ?_, by decide⟩
  · intro pf t
    rw [parseGeminiResponse_verdict]
    exact foldl_applyLine_verdict_mem pf (pySplit '\n' t) _ (by simp)
  · intro pf t hl
    rw [parseGeminiResponse_verdict]
    exact foldl_applyLine_verdict_preserved pf (pySplit '\n' t) hl _
  · intro env claim ev o n h
    unfold verify_with_llm at h
    split at h
    · simp at h
    · split at h
      · simp at h
      · rename_i text heq
        rw [Prod.mk.injEq] at h
        obtain ⟨h1, -⟩ := h
        injection h1 with h1
        rw [← h1]
        show (parseGeminiResponse env.pyFloat text).verdict ∈ _
        rw [parseGeminiResponse_verdict]
        exact foldl_applyLine_verdict_mem env.pyFloat (pySplit '\n' text) _ (by simp)

/-- Witness for C7 on a response without any VERDICT line. -/
theorem claim_C7_witness :
    (∀ l ∈ pySplit '\n' "SCORE: 10\nEXPLANATION: z", pyStartsWith l "VERDICT:" = false)
    ∧ (parseGeminiResponse readDecimal "SCORE: 10\nEXPLANATION: z").verdict = "neutral" :=
  ⟨by decide, claim_C7.2.1 readDecimal "SCORE: 10\nEXPLANATION: z" (by decide)⟩

/-- C1: on a valid claim with the cache available and initially empty,
the first `verify_claim` call writes its result to the cache under the
(claim, context) fingerprint with a 3600*24-second expiry, and a second
identical call — running against the cache state the first call left —
returns that result verbatim while attempting no search-provider, primary
judge or secondary judge call and writing nothing. -/
theorem claim_C1 (env : Env) (claim : String) (ctx : Option String)
    (h3 : ¬ (pyStrip claim).length < 3)
    (hr : env.redisAvailable = true)
    (hget : env.cacheGet (cache_key env claim ctx) = .ok none)
    (hset : ∀ k t v, env.cacheSet k t v = .ok ()) :
    (verify_claim env claim ctx).2.cacheWrites
        = [(cache_key env claim ctx, 3600 * 24, (verify_claim env claim ctx).1)]
    ∧ (verify_claim (envAfterFirst env claim ctx) claim ctx).1 = (verify_claim env claim ctx).1
    ∧ (verify_claim (envAfterFirst env claim ctx) claim ctx).2.searchCalls = 0
    ∧ (verify_claim (envAfterFirst env claim ctx) claim ctx).2.geminiCalls = 0
    ∧ (verify_claim (envAfterFirst env claim ctx) claim ctx).2.gptCalls = 0
    ∧ (verify_claim (envAfterFirst env claim ctx) claim ctx).2.cacheWrites = [] := by
  have h1 := verify_claim_miss_redis env claim ctx h3 hr hget hset
  have hget2 : (envAfterFirst env claim ctx).cacheGet
      (cache_key (envAfterFirst env claim ctx) claim ctx)
      = .ok (some (verify_claim env claim ctx).1) := by
    show (if cache_key env claim ctx = cache_key env claim ctx
            then Except.ok (some (verify_claim env claim ctx).1)
            else env.cacheGet (cache_key env claim ctx)) = _
    rw [if_pos rfl]
  have h2 := verify_claim_hit (envAfterFirst env claim ctx) claim ctx h3 hr
    ((verify_claim env claim ctx).1) hget2
  rw [h2, h1]
  exact ⟨rfl, rfl, rfl, rfl, rfl, rfl⟩

/-- Witness for C1 on a concrete cache-backed environment. -/
theorem claim_C1_witness :
    (¬ (pyStrip "The sky is blue").length < 3
      ∧ envW1.redisAvailable = true
      ∧ envW1.cacheGet (cache_key envW1 "The sky is blue" none) = .ok none)
    ∧ (verify_claim envW1 "The sky is blue" none).2.cacheWrites
        = [(cache_key envW1 "The sky is blue" none, 3600 * 24,
            (verify_claim envW1 "The sky is blue" none).1)]
    ∧ (verify_claim (envAfterFirst envW1 "The sky is blue" none) "The sky is blue" none).1
        = (verify_claim envW1 "The sky is blue" none).1
    ∧ (verify_claim (envAfterFirst envW1 "The sky is blue" none) "The sky is blue" none).2.searchCalls = 0
    ∧ (verify_claim (envAfterFirst envW1 "The sky is blue" none) "The sky is blue" none).2.geminiCalls = 0
    ∧ (verify_claim (envAfterFirst envW1 "The sky is blue" none) "The sky is blue" none).2.gptCalls = 0
    ∧ (verify_claim (envAfterFirst envW1 "The sky is blue" none) "The sky is blue" none).2.cacheWrites = [] :=
  ⟨⟨by decide, rfl, rfl⟩,
   claim_C1 envW1 "The sky is blue" none (by decide) rfl rfl (fun _ _ _ => rfl)⟩

/-- C3: with no OpenAI key configured, a computed result carries an
absent (None) secondary score together with one fixed explanatory string
— the caught-`float(None)` error text — while the primary score and
verdict are exactly what they would be under any secondary-judge
configuration. -/
theorem claim_C3 (env : Env) (claim : String) (ctx : Option String)
    (h3 : ¬ (pyStrip claim).length < 3)
    (hget : env.redisAvailable = true → env.cacheGet (cache_key env claim ctx) = .ok none)
    (hset : ∀ k t v, env.cacheSet k t v = .ok ())
    (hopen : env.openaiConfigured = false) :
    (verify_claim env claim ctx).1.gpt
        = some (none, "Error in GPT secondary check: " ++ pyFloatNoneMessage)
    ∧ ∀ (g : String → Except String String) (p : String → Except String (Int × String)) (b : Bool),
        (verify_claim { env with openaiConfigured := b, chatgpt := g, gptParse := p } claim ctx).1.score
            = (verify_claim env claim ctx).1.score
        ∧ (verify_claim { env with openaiConfigured := b, chatgpt := g, gptParse := p } claim ctx).1.verdict
            = (verify_claim env claim ctx).1.verdict := by
  have hv := verify_claim_fst_miss env claim ctx h3 hget hset
  constructor
  · rw [hv]
    exact missCompute_gpt_noopenai env claim hopen
  · intro g p b
    have hv2 := verify_claim_fst_miss
      { env with openaiConfigured := b, chatgpt := g, gptParse := p } claim ctx h3 hget hset
    rw [hv, hv2]
    exact ⟨rfl, rfl⟩

/-- Witness for C3 on a concrete environment without an OpenAI key. -/
theorem claim_C3_witness :
    (¬ (pyStrip "The moon orbits the earth").length < 3
      ∧ envW3.openaiConfigured = false)
    ∧ (verify_claim envW3 "The moon orbits the earth" none).1.gpt
        = some (none, "Error in GPT secondary check: " ++ pyFloatNoneMessage)
    ∧ (verify_claim { envW3 with
          openaiConfigured := true,
          chatgpt := fun _ => .ok "x",
          gptParse := fun _ => .ok (70, "z") } "The moon orbits the earth" none).1.score
        = (verify_claim envW3 "The moon orbits the earth" none).1.score
    ∧ (verify_claim { envW3 with
          openaiConfigured := true,
          chatgpt := fun _ => .ok "x",
          gptParse := fun _ => .ok (70, "z") } "The moon orbits the earth" none).1.verdict
        = (verify_claim envW3 "The moon orbits the earth" none).1.verdict := by
  have h := claim_C3 envW3 "The moon orbits the earth" none (by decide)
    (fun h => Bool.noConfusion h) (fun _ _ _ => rfl) rfl
  exact ⟨⟨by decide, rfl⟩, h.1,
    (h.2 (fun _ => .ok "x") (fun _ => .ok (70, "z")) true).1,
    (h.2 (fun _ => .ok "x") (fun _ => .ok (70, "z")) true).2⟩

/-- C4: when the primary judge raises, the computed result degrades to
score 50.0, verdict "neutral" and an explanation carrying the failure
reason, while still holding the gathered evidence and a sources list
equal to the link of every evidence item. -/
theorem claim_C4 (env : Env) (claim : String) (ctx : Option String) (e : String)
    (h3 : ¬ (pyStrip claim).length < 3)
    (hget : env.redisAvailable = true → env.cacheGet (cache_key env claim ctx) = .ok none)
    (hset : ∀ k t v, env.cacheSet k t v = .ok ())
    (hfail : (verify_with_llm env claim (search_for_evidence env claim).1).1 = .error e) :
    (verify_claim env claim ctx).1.score = 50
    ∧ (verify_claim env claim ctx).1.verdict = "neutral"
    ∧ (verify_claim env claim ctx).1.explanation = "Error in AI analysis: " ++ e
    ∧ (verify_claim env claim ctx).1.evidence = (search_for_evidence env claim).1
    ∧ (verify_claim env claim ctx).1.sources
        = ((verify_claim env claim ctx).1.evidence).map (fun i => i.link) := by
  have hv := verify_claim_fst_miss env claim ctx h3 hget hset
  rw [hv]
  exact missCompute_primary_error env claim e hfail

/-- Witness for C4: Gemini is unavailable but the search succeeded. -/
theorem claim_C4_witness :
    (¬ (pyStrip "The Great Wall is visible from space").length < 3
      ∧ (verify_with_llm envW4 "The Great Wall is visible from space"
          (search_for_evidence envW4 "The Great Wall is visible from space").1).1
            = .error "Gemini model not available")
    ∧ (verify_claim envW4 "The Great Wall is visible from space" none).1.score = 50
    ∧ (verify_claim envW4 "The Great Wall is visible from space" none).1.verdict = "neutral"
    ∧ (verify_claim envW4 "The Great Wall is visible from space" none).1.explanation
        = "Error in AI analysis: " ++ "Gemini model not available"
    ∧ (verify_claim envW4 "The Great Wall is visible from space" none).1.evidence
        = (search_for_evidence envW4 "The Great Wall is visible from space").1
    ∧ (verify_claim envW4 "The Great Wall is visible from space" none).1.sources
        = ((verify_claim envW4 "The Great Wall is visible from space" none).1.evidence).map
            (fun i => i.link) :=
  ⟨⟨by decide, rfl⟩,
   claim_C4 envW4 "The Great Wall is visible from space" none "Gemini model not available"
     (by decide) (fun h => Bool.noConfusion h) (fun _ _ _ => rfl) rfl⟩

/-- C10: the result dictionary of the validation-rejection path and of
the top-level error path carries no secondary-judge fields, while the
result assembled on the cache-miss path always carries both — the public
result shape differs between these paths. -/
theorem claim_C10 :
    (∀ (env : Env) (claim : String) (ctx : Option String),
      (pyStrip claim).length < 3 → (verify_claim env claim ctx).1.gpt = none)
    ∧ (∀ (env : Env) (claim : String) (ctx : Option String) (e : String) (tr : Trace),
        verify_claim_attempt env claim ctx = .error (e, tr) →
          (verify_claim env claim ctx).1.gpt = none)
    ∧ (∀ (env : Env) (claim : String) (ctx : Option String),
        ¬ (pyStrip claim).length < 3 →
        (env.redisAvailable = true → env.cacheGet (cache_key env claim ctx) = .ok none) →
        (∀ k t v, env.cacheSet k t v = .ok ()) →
          ∃ p, (verify_claim env claim ctx).1.gpt = some p) := by
  refine ⟨?_, ?_, ?_⟩
  · intro env claim ctx h
    rw [verify_claim_short env claim ctx h]
    rfl
  · intro env claim ctx e tr h
    unfold verify_claim
    rw [h]
    rfl
  · intro env claim ctx h3 hget hset
    rw [verify_claim_fst_miss env claim ctx h3 hget hset]
    exact ⟨_, rfl⟩

/-- Witness for C10 on the three paths. -/
theorem claim_C10_witness :
    ((pyStrip "no").length < 3 ∧ (verify_claim envBase "no" none).1.gpt = none)
    ∧ (verify_claim_attempt envErr "The sky is blue" none
          = .error ("Connection refused", ⟨1, 0, 0, 0, []⟩)
        ∧ (verify_claim envErr "The sky is blue" none).1.gpt = none)
    ∧ (∃ p, (verify_claim envBase "The sky is blue" none).1.gpt = some p) :=
  ⟨⟨by decide, claim_C10.1 envBase "no" none (by decide)⟩,
   ⟨rfl, claim_C10.2.1 envErr "The sky is blue" none "Connection refused" ⟨1, 0, 0, 0, []⟩ rfl⟩,
   claim_C10.2.2 envBase "The sky is blue" none (by decide)
     (fun h => Bool.noConfusion h) (fun _ _ _ => rfl)⟩

end FactCheck
